import Mathlib

/-!
Shallow embedding of the two scripts of this repository,
src/traffic_light_sim.py and src/traffic_sim.py.

Python floats are modelled as rationals; Python float remainder
(the % operator with a positive divisor) is modelled by pymod below;
Python int remainder matches Int.emod for a positive divisor.
Random draws from random.random() are passed as explicit arguments,
and the global random-number-generator state is modelled as a stream
of draws (a function from draw index to value).
-/

/-- Python remainder a % b on floats: a - b * floor (a / b). -/
def pymod (a b : ℚ) : ℚ := a - b * ⌊a / b⌋

namespace TrafficLightSim

/-- TrafficLight of src/traffic_light_sim.py (three states, float durations). -/
structure TrafficLight where
  green_duration : ℚ := 12
  yellow_duration : ℚ := 3
  red_duration : ℚ := 10

/-- TrafficLight.phase of src/traffic_light_sim.py. -/
def TrafficLight.phase (L : TrafficLight) (time : ℚ) : String :=
  let cycle := L.green_duration + L.yellow_duration + L.red_duration
  let position := pymod time cycle
  if position < L.green_duration then ("green")
  else if position < L.green_duration + L.yellow_duration then ("yellow")
  else ("red")

/-- TrafficLight.allows_passing of src/traffic_light_sim.py. -/
def TrafficLight.allows_passing (L : TrafficLight) (time : ℚ) : Bool :=
  L.phase time == ("green")

/-- Car of src/traffic_light_sim.py. -/
structure Car where
  position : ℚ := 0
  speed : ℚ := 12

/-- Car.advance of src/traffic_light_sim.py. -/
def Car.advance (c : Car) (dt light_position : ℚ) ( light_open : Bool) : Car :=
  if light_open = false ∧ c.position < light_position then
    let stop_line := max (light_position - 2) c.position
    let distance_to_stop := stop_line - c.position
    let movement := min distance_to_stop (c.speed * dt)
    { c with position := c.position + movement }
  else
    { c with position := c.position + c.speed * dt }

/-- StreetSimulation state of src/traffic_light_sim.py (visualization fields omitted). -/
structure StreetSimulation where
  light : TrafficLight
  road_length : ℚ := 120
  light_position : ℚ := 60
  arrival_rate : ℚ := 1/4
  time_step : ℚ := 1/10
  cars : List Car := []
  time_elapsed : ℚ := 0

/-- StreetSimulation.spawn_cars of src/traffic_light_sim.py; u is the value
drawn from random.random(). -/
def StreetSimulation.spawn_cars (s : StreetSimulation) (u : ℚ) : StreetSimulation :=
  if u < s.arrival_rate * s.time_step then
    { s with cars := s.cars ++ [{}] }
  else s

/-- StreetSimulation.step of src/traffic_light_sim.py; u is the random draw
consumed by spawn_cars. -/
def StreetSimulation.step (s : StreetSimulation) (u : ℚ) : StreetSimulation :=
  let s1 := s.spawn_cars u
  let lightOpen := s1.light.allows_passing s1.time_elapsed
  let moved := s1.cars.map (fun car => car.advance s1.time_step s1.light_position lightOpen)
  { s1 with
      cars := moved.filter (fun car => decide (car.position < s1.road_length)),
      time_elapsed := s1.time_elapsed + s1.time_step }

/-- StreetSimulation.step iterated n times, consuming draws f 0, f 1, ... in order. -/
def StreetSimulation.stepN (s : StreetSimulation) (f : ℕ → ℚ) : ℕ → StreetSimulation
  | 0 => s
  | n + 1 => (s.stepN f n).step (f n)

/-- Car.advance folded over a list of (dt, light_position, light_open) arguments. -/
def Car.advanceSeq (c : Car) : List (ℚ × ℚ × Bool) → Car
  | [] => c
  | p :: rest => ((c.advance p.1 p.2.1 p.2.2).advanceSeq rest)

/-- Observable outcome of main of src/traffic_light_sim.py: the exit code,
the lines printed to stderr, and the arrival rate the simulation is built
with (none when main returns before building it). -/
structure MainResult where
  exit_code : ℤ
  stderr : List String
  arrival_rate : Option ℚ

/-- main of src/traffic_light_sim.py; the library float() parser is passed
in as parse, returning none where float() would raise ValueError. -/
def main (parse : String → Option ℚ) (argv : List String) : MainResult :=
  let arrival_rate : ℚ := 1/4
  if argv.length > 1 then
    match parse (argv.getD 1 ("")) with
    | some v => { exit_code := 0, stderr := [], arrival_rate := some v }
    | none =>
        { exit_code := 1,
          stderr := [("Arrival rate must be numeric (cars per second).")],
          arrival_rate := none }
  else
    { exit_code := 0, stderr := [], arrival_rate := some arrival_rate }

end TrafficLightSim

namespace TrafficSim

/-- TrafficLight of src/traffic_sim.py (two states, int durations). -/
structure TrafficLight where
  green_duration : ℤ
  red_duration : ℤ

/-- TrafficLight.is_green of src/traffic_sim.py. -/
def TrafficLight.is_green (L : TrafficLight) (tick : ℤ) : Bool :=
  let phase := tick % (L.green_duration + L.red_duration)
  decide (phase < L.green_duration)

/-- Car of src/traffic_sim.py. -/
structure Car where
  position : ℚ
  speed : ℚ

/-- Car.step of src/traffic_sim.py. -/
def Car.step (c : Car) (light : TrafficLight) (dt stop_line : ℚ) (tick : ℤ) : Car :=
  let distance_to_stop := stop_line - c.position
  if distance_to_stop ≤ 0 then
    { c with position := c.position + c.speed * dt }
  else if light.is_green tick then
    { c with position := c.position + c.speed * dt }
  else
    let step_distance := c.speed * dt
    if step_distance ≥ distance_to_stop then
      { c with position := stop_line }
    else
      { c with position := c.position + step_distance }

/-- Car.step folded over a list of (light, dt, stop_line, tick) arguments. -/
def Car.stepSeq (c : Car) : List (TrafficLight × ℚ × ℚ × ℤ) → Car
  | [] => c
  | q :: rest => ((c.step q.1 q.2.1 q.2.2.1 q.2.2.2).stepSeq rest)

/-- Simulation state of src/traffic_sim.py (visualization fields omitted). -/
structure Simulation where
  road_length : ℚ
  stop_line : ℚ
  car_speed : ℚ
  spawn_rate : ℚ
  time_step : ℚ
  tick : ℤ
  cars : List Car
  light : TrafficLight

/-- Simulation.__init__ of src/traffic_sim.py. mkStream models random.seed:
it maps a seed to the stream of draws the seeded global generator will
produce; g is the prior global generator state. The result pairs the built
Simulation with the global generator state after construction. -/
def Simulation.init (mkStream : ℤ → ℕ → ℚ) (g : ℕ → ℚ)
    (road_length stop_line car_speed spawn_rate time_step : ℚ)
    (seed : Option ℤ) : Except String (Simulation × (ℕ → ℚ)) :=
  if stop_line ≥ road_length then
    .error ("Stop line must be within the road length.")
  else
    .ok ({ road_length := road_length, stop_line := stop_line,
           car_speed := car_speed, spawn_rate := spawn_rate,
           time_step := time_step, tick := 0, cars := [],
           light := { green_duration := 40, red_duration := 30 } },
         match seed with
         | some sd => mkStream sd
         | none => g)

/-- Simulation.__init__ with all defaults of src/traffic_sim.py
(road_length 120, stop_line 60, car_speed 20, spawn_rate 0.35,
time_step 0.1, seed 13). -/
def Simulation.initDefault (mkStream : ℤ → ℕ → ℚ) (g : ℕ → ℚ) :
    Except String (Simulation × (ℕ → ℚ)) :=
  Simulation.init mkStream g 120 60 20 (7/20) (1/10) (some 13)

/-- Simulation.spawn_car of src/traffic_sim.py; u is the value drawn from
random.random(). -/
def Simulation.spawn_car (s : Simulation) (u : ℚ) : Simulation :=
  if u < s.spawn_rate then
    { s with cars := s.cars ++ [{ position := 0, speed := s.car_speed }] }
  else s

/-- Simulation.update of src/traffic_sim.py; u is the random draw consumed
by spawn_car. -/
def Simulation.update (s : Simulation) (u : ℚ) : Simulation :=
  let s1 := s.spawn_car u
  let moved := s1.cars.map (fun car => car.step s1.light s1.time_step s1.stop_line s1.tick)
  { s1 with
      cars := moved.filter (fun car => decide (car.position ≤ s1.road_length)),
      tick := s1.tick + 1 }

/-- Simulation.update iterated n times, consuming draws f 0, f 1, ... in order. -/
def Simulation.updateN (s : Simulation) (f : ℕ → ℚ) : ℕ → Simulation
  | 0 => s
  | n + 1 => (s.updateN f n).update (f n)

end TrafficSim

section Helpers

/-- Adding the modulus on the left argument of pymod changes nothing. -/
lemma pymod_add_right (t c : ℚ) (hc : c ≠ 0) : pymod (t + c) c = pymod t c := by
  unfold pymod
  rw [add_div, div_self hc, Int.floor_add_one]
  push_cast
  ring

end Helpers

/-- Claim C1: TrafficLight.phase in traffic_light_sim is a total three-way
function of elapsed time: for every t ≥ 0 it returns exactly one of green,
yellow, red, green exactly when t mod cycle is below green_duration, yellow
exactly when that remainder lies in [green_duration, green_duration +
yellow_duration), and red otherwise; TrafficLight.is_green in traffic_sim
returns true iff tick mod (green_duration + red_duration) < green_duration;
allows_passing returns true iff phase returns green. -/
theorem claim_C1 (L : TrafficLightSim.TrafficLight) (t : ℚ)
    (L2 : TrafficSim.TrafficLight) (k : ℤ)
    (ht : 0 ≤ t) (hk : 0 ≤ k) (hy : 0 ≤ L.yellow_duration) :
    (L.phase t = ("green") ∨ L.phase t = ("yellow") ∨ L.phase t = ("red")) ∧
    (L.phase t = ("green") ↔
      pymod t (L.green_duration + L.yellow_duration + L.red_duration) < L.green_duration) ∧
    (L.phase t = ("yellow") ↔
      L.green_duration ≤ pymod t (L.green_duration + L.yellow_duration + L.red_duration) ∧
      pymod t (L.green_duration + L.yellow_duration + L.red_duration) <
        L.green_duration + L.yellow_duration) ∧
    (L.phase t = ("red") ↔
      L.green_duration + L.yellow_duration ≤
        pymod t (L.green_duration + L.yellow_duration + L.red_duration)) ∧
    (L2.is_green k = true ↔ k % (L2.green_duration + L2.red_duration) < L2.green_duration) ∧
    (L.allows_passing t = true ↔ L.phase t = ("green")) := by
  refine ⟨?_, ?_, ?_, ?_, ?_, ?_⟩ <;>
    simp only [TrafficLightSim.TrafficLight.phase,
      TrafficLightSim.TrafficLight.allows_passing,
      TrafficSim.TrafficLight.is_green, decide_eq_true_iff, beq_iff_eq] <;>
    split_ifs with h1 h2 <;> simp_all <;> try linarith

/-- Witness for claim C1 at the default light, t = 5, and the traffic_sim
light (40, 30) at tick 3. -/
theorem claim_C1_witness :
    ({} : TrafficLightSim.TrafficLight).phase 5 = ("green") ∨
    ({} : TrafficLightSim.TrafficLight).phase 5 = ("yellow") ∨
    ({} : TrafficLightSim.TrafficLight).phase 5 = ("red") :=
  (claim_C1 {} 5 ⟨40, 30⟩ 3 (by norm_num) (by decide) (by norm_num)).1

/-- Claim C2: the phase function is periodic: for every t ≥ 0,
phase (t + green_duration + yellow_duration + red_duration) = phase t in
traffic_light_sim, and is_green (tick + green_duration + red_duration) =
is_green tick in traffic_sim, assuming positive durations. -/
theorem claim_C2 (L : TrafficLightSim.TrafficLight) (t : ℚ)
    (L2 : TrafficSim.TrafficLight) (k : ℤ)
    (ht : 0 ≤ t) (hk : 0 ≤ k)
    (hg : 0 < L.green_duration) (hy : 0 < L.yellow_duration) (hr : 0 < L.red_duration)
    (hg2 : 0 < L2.green_duration) (hr2 : 0 < L2.red_duration) :
    L.phase (t + (L.green_duration + L.yellow_duration + L.red_duration)) = L.phase t ∧
    L2.is_green (k + (L2.green_duration + L2.red_duration)) = L2.is_green k := by
  constructor
  · have hc : L.green_duration + L.yellow_duration + L.red_duration ≠ 0 := by linarith
    simp only [TrafficLightSim.TrafficLight.phase, pymod_add_right _ _ hc]
  · have hmod : (k + (L2.green_duration + L2.red_duration)) %
        (L2.green_duration + L2.red_duration) =
        k % (L2.green_duration + L2.red_duration) := by
      have h := @Int.add_mul_emod_self_left k (L2.green_duration + L2.red_duration) 1
      rwa [mul_one] at h
    simp only [TrafficSim.TrafficLight.is_green, hmod]

/-- Witness for claim C2 at the default light, t = 5, and the traffic_sim
light (40, 30) at tick 3. -/
theorem claim_C2_witness :
    ({} : TrafficLightSim.TrafficLight).phase (5 + (12 + 3 + 10)) =
      ({} : TrafficLightSim.TrafficLight).phase 5 ∧
    TrafficSim.TrafficLight.is_green ⟨40, 30⟩ (3 + (40 + 30)) =
      TrafficSim.TrafficLight.is_green ⟨40, 30⟩ 3 :=
  claim_C2 {} 5 ⟨40, 30⟩ 3 (by norm_num) (by decide) (by norm_num) (by norm_num)
    (by norm_num) (by decide) (by decide)

/-- spawn_cars leaves every field but cars unchanged. -/
lemma TrafficLightSim.StreetSimulation.spawn_cars_fields
    (s : StreetSimulation) (u : ℚ) :
    (s.spawn_cars u).light = s.light ∧
    (s.spawn_cars u).road_length = s.road_length ∧
    (s.spawn_cars u).light_position = s.light_position ∧
    (s.spawn_cars u).time_step = s.time_step ∧
    (s.spawn_cars u).time_elapsed = s.time_elapsed := by
  unfold StreetSimulation.spawn_cars
  split <;> simp

/-- A car already on the road survives spawn_cars. -/
lemma TrafficLightSim.StreetSimulation.mem_spawn_cars
    {s : StreetSimulation} {u : ℚ} {c : Car} (hc : c ∈ s.cars) :
    c ∈ (s.spawn_cars u).cars := by
  unfold StreetSimulation.spawn_cars
  split <;> simp [hc]

/-- The car list produced by one step: spawn, advance every car with dt =
time_step, keep those strictly inside the road. -/
lemma TrafficLightSim.StreetSimulation.step_cars (s : StreetSimulation) (u : ℚ) :
    (s.step u).cars = ((s.spawn_cars u).cars.map
      (fun car => car.advance s.time_step s.light_position
        (s.light.allows_passing s.time_elapsed))).filter
      (fun car => decide (car.position < s.road_length)) := by
  have h := s.spawn_cars_fields u
  unfold StreetSimulation.step
  simp [h.1, h.2.1, h.2.2.1, h.2.2.2.1, h.2.2.2.2]

/-- spawn_car leaves every field but cars unchanged. -/
lemma TrafficSim.Simulation.spawn_car_fields (s : Simulation) (u : ℚ) :
    (s.spawn_car u).light = s.light ∧
    (s.spawn_car u).road_length = s.road_length ∧
    (s.spawn_car u).stop_line = s.stop_line ∧
    (s.spawn_car u).time_step = s.time_step ∧
    (s.spawn_car u).tick = s.tick := by
  unfold Simulation.spawn_car
  split <;> simp

/-- A car already on the road survives spawn_car. -/
lemma TrafficSim.Simulation.mem_spawn_car
    {s : Simulation} {u : ℚ} {c : Car} (hc : c ∈ s.cars) :
    c ∈ (s.spawn_car u).cars := by
  unfold Simulation.spawn_car
  split <;> simp [hc]

/-- The car list produced by one update: spawn, step every car with dt =
time_step, keep those at most road_length along. -/
lemma TrafficSim.Simulation.update_cars (s : Simulation) (u : ℚ) :
    (s.update u).cars = ((s.spawn_car u).cars.map
      (fun car => car.step s.light s.time_step s.stop_line s.tick)).filter
      (fun car => decide (car.position ≤ s.road_length)) := by
  have h := s.spawn_car_fields u
  unfold Simulation.update
  simp [h.1, h.2.1, h.2.2.1, h.2.2.2.1, h.2.2.2.2]

/-- Claim C3: the simulation is fixed-timestep: StreetSimulation.step in
traffic_light_sim increases time_elapsed by exactly time_step and advances
every car present at the start of the step with dt = time_step (the car
survives unless culled at road_length); Simulation.update in traffic_sim
increases tick by exactly 1 and advances every car with dt = time_step;
neither changes the step size. -/
theorem claim_C3 (s : TrafficLightSim.StreetSimulation) (u : ℚ)
    (c : TrafficLightSim.Car) (hc : c ∈ s.cars)
    (s2 : TrafficSim.Simulation) (v : ℚ)
    (c2 : TrafficSim.Car) (hc2 : c2 ∈ s2.cars) :
    (s.step u).time_elapsed = s.time_elapsed + s.time_step ∧
    (s.step u).time_step = s.time_step ∧
    (c.advance s.time_step s.light_position
        (s.light.allows_passing s.time_elapsed) ∈ (s.step u).cars ∨
      ¬ (c.advance s.time_step s.light_position
        (s.light.allows_passing s.time_elapsed)).position < s.road_length) ∧
    (s2.update v).tick = s2.tick + 1 ∧
    (s2.update v).time_step = s2.time_step ∧
    (c2.step s2.light s2.time_step s2.stop_line s2.tick ∈ (s2.update v).cars ∨
      ¬ (c2.step s2.light s2.time_step s2.stop_line s2.tick).position ≤ s2.road_length) := by
  have h1 := s.spawn_cars_fields u
  have h2 := s2.spawn_car_fields v
  refine ⟨?_, ?_, ?_, ?_, ?_, ?_⟩
  · unfold TrafficLightSim.StreetSimulation.step
    simp [h1.2.2.2.1, h1.2.2.2.2]
  · unfold TrafficLightSim.StreetSimulation.step
    simp [h1.2.2.2.1]
  · rw [TrafficLightSim.StreetSimulation.step_cars]
    by_cases h : (c.advance s.time_step s.light_position
        (s.light.allows_passing s.time_elapsed)).position < s.road_length
    · left
      exact List.mem_filter.mpr
        ⟨List.mem_map_of_mem _ (TrafficLightSim.StreetSimulation.mem_spawn_cars hc),
          by simpa using h⟩
    · right; exact h
  · unfold TrafficSim.Simulation.update
    simp [h2.2.2.2.2]
  · unfold TrafficSim.Simulation.update
    simp [h2.2.2.2.1]
  · rw [TrafficSim.Simulation.update_cars]
    by_cases h : (c2.step s2.light s2.time_step s2.stop_line s2.tick).position ≤ s2.road_length
    · left
      exact List.mem_filter.mpr
        ⟨List.mem_map_of_mem _ (TrafficSim.Simulation.mem_spawn_car hc2),
          by simpa using h⟩
    · right; exact h

/-- Witness for claim C3 at small concrete states holding one car each. -/
theorem claim_C3_witness :
    (({ light := {}, cars := [{}] } : TrafficLightSim.StreetSimulation).step 1).time_elapsed =
      ({ light := {}, cars := [{}] } : TrafficLightSim.StreetSimulation).time_elapsed +
      ({ light := {}, cars := [{}] } : TrafficLightSim.StreetSimulation).time_step ∧
    ((⟨120, 60, 20, 7/20, 1/10, 0, [⟨0, 20⟩], ⟨40, 30⟩⟩ : TrafficSim.Simulation).update 1).tick =
      (⟨120, 60, 20, 7/20, 1/10, 0, [⟨0, 20⟩], ⟨40, 30⟩⟩ : TrafficSim.Simulation).tick + 1 :=
  ⟨(claim_C3 { light := {}, cars := [{}] } 1 {} (by simp)
      ⟨120, 60, 20, 7/20, 1/10, 0, [⟨0, 20⟩], ⟨40, 30⟩⟩ 1 ⟨0, 20⟩ (by simp)).1,
    (claim_C3 { light := {}, cars := [{}] } 1 {} (by simp)
      ⟨120, 60, 20, 7/20, 1/10, 0, [⟨0, 20⟩], ⟨40, 30⟩⟩ 1 ⟨0, 20⟩ (by simp)).2.2.2.1⟩

/-- Claim C9: road-length culling: after a step every remaining car of
traffic_light_sim has position strictly below road_length, after an update
every remaining car of traffic_sim has position at most road_length, and a
car is kept exactly when its advanced position satisfies that bound, so
cars are never removed for any other reason. -/
theorem claim_C9 (s : TrafficLightSim.StreetSimulation) (u : ℚ)
    (c : TrafficLightSim.Car)
    (s2 : TrafficSim.Simulation) (v : ℚ) (c2 : TrafficSim.Car) :
    (c ∈ (s.step u).cars ↔
      c ∈ (s.spawn_cars u).cars.map
        (fun car => car.advance s.time_step s.light_position
          (s.light.allows_passing s.time_elapsed)) ∧
      c.position < s.road_length) ∧
    (c ∈ (s.step u).cars → c.position < s.road_length) ∧
    (c2 ∈ (s2.update v).cars ↔
      c2 ∈ (s2.spawn_car v).cars.map
        (fun car => car.step s2.light s2.time_step s2.stop_line s2.tick) ∧
      c2.position ≤ s2.road_length) ∧
    (c2 ∈ (s2.update v).cars → c2.position ≤ s2.road_length) := by
  have hA : c ∈ (s.step u).cars ↔
      c ∈ (s.spawn_cars u).cars.map
        (fun car => car.advance s.time_step s.light_position
          (s.light.allows_passing s.time_elapsed)) ∧
      c.position < s.road_length := by
    rw [TrafficLightSim.StreetSimulation.step_cars]
    simp [List.mem_filter]
  have hB : c2 ∈ (s2.update v).cars ↔
      c2 ∈ (s2.spawn_car v).cars.map
        (fun car => car.step s2.light s2.time_step s2.stop_line s2.tick) ∧
      c2.position ≤ s2.road_length := by
    rw [TrafficSim.Simulation.update_cars]
    simp [List.mem_filter]
  exact ⟨hA, fun h => (hA.mp h).2, hB, fun h => (hB.mp h).2⟩

/-- Witness for claim C9: the lone car of a concrete state, advanced
through a green light, stays on the road after the step. -/
theorem claim_C9_witness :
    (⟨6/5, 12⟩ : TrafficLightSim.Car) ∈
      (({ light := {}, cars := [{}] } : TrafficLightSim.StreetSimulation).step 1).cars :=
  (claim_C9 { light := {}, cars := [{}] } 1 ⟨6/5, 12⟩
      ⟨120, 60, 20, 7/20, 1/10, 0, [], ⟨40, 30⟩⟩ 1 ⟨0, 20⟩).1.mpr
    ⟨by norm_num [TrafficLightSim.StreetSimulation.spawn_cars,
        TrafficLightSim.Car.advance, TrafficLightSim.TrafficLight.allows_passing,
        TrafficLightSim.TrafficLight.phase, pymod],
      by norm_num⟩

/-- Counterexample to claim C4 as stated: under a red light, from position 0
with speed 1 and dt = 100 against the line at 60, Car.advance of
traffic_light_sim stops at 58 (two meters before the line) while Car.step
of traffic_sim clamps to 60. -/
theorem claim_C4_counterexample :
    ¬ ((TrafficLightSim.Car.mk 0 1).advance 100 60
          (TrafficSim.TrafficLight.is_green ⟨40, 30⟩ 40)).position =
        ((TrafficSim.Car.mk 0 1).step ⟨40, 30⟩ 100 60 40).position := by
  have hg : TrafficSim.TrafficLight.is_green ⟨40, 30⟩ 40 = false := by decide
  rw [hg]
  norm_num [TrafficLightSim.Car.advance, TrafficSim.Car.step, hg, max_def, min_def]

/-- Claim C4 (amended): the two car-update functions agree whenever the
light allows passing or the car is already at or past the stop line; when
the light is red and the car is before the line they stop at different
targets (two meters short of the line versus exactly the line), so the
equality is restricted to that case. -/
theorem claim_C4 (p v dt line : ℚ) (light : TrafficSim.TrafficLight) (k : ℤ)
    (h : light.is_green k = true ∨ line ≤ p) :
    ((TrafficLightSim.Car.mk p v).advance dt line (light.is_green k)).position =
      ((TrafficSim.Car.mk p v).step light dt line k).position := by
  simp only [TrafficLightSim.Car.advance, TrafficSim.Car.step]
  rcases h with hgreen | hpast
  · rw [hgreen]
    split_ifs <;> simp_all
  · split_ifs <;> simp_all <;> linarith

/-- Witness for claim C4 at a green light (tick 0 of the (40, 30) light). -/
theorem claim_C4_witness :
    ((TrafficLightSim.Car.mk 0 1).advance 1 60
        (TrafficSim.TrafficLight.is_green ⟨40, 30⟩ 0)).position =
      ((TrafficSim.Car.mk 0 1).step ⟨40, 30⟩ 1 60 0).position :=
  claim_C4 0 1 1 60 ⟨40, 30⟩ 0 (Or.inl (by decide))

/-- Car.advance never changes the speed. -/
lemma TrafficLightSim.Car.advance_speed (c : Car) (dt L : ℚ) (b : Bool) :
    (c.advance dt L b).speed = c.speed := by
  simp only [Car.advance]
  split_ifs <;> rfl

/-- Car.step never changes the speed. -/
lemma TrafficSim.Car.step_speed (c : Car) (light : TrafficLight) (dt line : ℚ)
    (k : ℤ) : (c.step light dt line k).speed = c.speed := by
  simp only [Car.step]
  split_ifs <;> rfl

/-- One Car.advance with nonnegative dt and speed never decreases position. -/
lemma TrafficLightSim.Car.advance_mono (c : Car) (dt L : ℚ) (b : Bool)
    (hdt : 0 ≤ dt) (hv : 0 ≤ c.speed) :
    c.position ≤ (c.advance dt L b).position := by
  simp only [Car.advance]
  split_ifs with h
  · show c.position ≤
      c.position + min (max (L - 2) c.position - c.position) (c.speed * dt)
    have h1 : 0 ≤ max (L - 2) c.position - c.position := by
      have := le_max_right (L - 2) c.position
      linarith
    have h2 : 0 ≤ c.speed * dt := mul_nonneg hv hdt
    have := le_min h1 h2
    linarith
  · show c.position ≤ c.position + c.speed * dt
    have h2 : 0 ≤ c.speed * dt := mul_nonneg hv hdt
    linarith

/-- One Car.step with nonnegative dt and speed never decreases position. -/
lemma TrafficSim.Car.step_mono (c : Car) (light : TrafficLight) (dt line : ℚ)
    (k : ℤ) (hdt : 0 ≤ dt) (hv : 0 ≤ c.speed) :
    c.position ≤ (c.step light dt line k).position := by
  have h2 : 0 ≤ c.speed * dt := mul_nonneg hv hdt
  simp only [Car.step]
  split_ifs with ha hb hc
  · show c.position ≤ c.position + c.speed * dt
    linarith
  · show c.position ≤ c.position + c.speed * dt
    linarith
  · show c.position ≤ line
    linarith
  · show c.position ≤ c.position + c.speed * dt
    linarith

/-- A fold of Car.advance over nonnegative dts never decreases position. -/
lemma TrafficLightSim.Car.advanceSeq_mono (c : Car) (ps : List (ℚ × ℚ × Bool))
    (hv : 0 ≤ c.speed) (hps : ∀ p ∈ ps, 0 ≤ p.1) :
    c.position ≤ (c.advanceSeq ps).position := by
  induction ps generalizing c with
  | nil => exact le_refl _
  | cons p rest ih =>
      have hstep : c.position ≤ (c.advance p.1 p.2.1 p.2.2).position :=
        c.advance_mono p.1 p.2.1 p.2.2 (hps p (List.mem_cons_self p rest)) hv
      have hrest : (c.advance p.1 p.2.1 p.2.2).position ≤
          ((c.advance p.1 p.2.1 p.2.2).advanceSeq rest).position := by
        refine ih _ ?_ (fun q hq => hps q (List.mem_cons_of_mem p hq))
        rw [c.advance_speed p.1 p.2.1 p.2.2]
        exact hv
      exact le_trans hstep hrest

/-- A fold of Car.step over nonnegative dts never decreases position. -/
lemma TrafficSim.Car.stepSeq_mono (c : Car)
    (qs : List (TrafficLight × ℚ × ℚ × ℤ))
    (hv : 0 ≤ c.speed) (hqs : ∀ q ∈ qs, 0 ≤ q.2.1) :
    c.position ≤ (c.stepSeq qs).position := by
  induction qs generalizing c with
  | nil => exact le_refl _
  | cons q rest ih =>
      have hstep : c.position ≤ (c.step q.1 q.2.1 q.2.2.1 q.2.2.2).position :=
        c.step_mono q.1 q.2.1 q.2.2.1 q.2.2.2 (hqs q (List.mem_cons_self q rest)) hv
      have hrest : (c.step q.1 q.2.1 q.2.2.1 q.2.2.2).position ≤
          ((c.step q.1 q.2.1 q.2.2.1 q.2.2.2).stepSeq rest).position := by
        refine ih _ ?_ (fun r hr => hqs r (List.mem_cons_of_mem q hr))
        rw [c.step_speed q.1 q.2.1 q.2.2.1 q.2.2.2]
        exact hv
      exact le_trans hstep hrest

/-- Claim C5: the street is one-way: with dt ≥ 0 and speed ≥ 0, a single
Car.advance of traffic_light_sim and a single Car.step of traffic_sim never
decrease the position, whatever the light state and stop line, and hence
the position is monotonically non-decreasing over any sequence of such
updates with nonnegative dts. -/
theorem claim_C5 (c1 : TrafficLightSim.Car) (dt L : ℚ) (b : Bool)
    (ps : List (ℚ × ℚ × Bool))
    (c2 : TrafficSim.Car) (light : TrafficSim.TrafficLight) (dt2 line : ℚ)
    (k : ℤ) (qs : List (TrafficSim.TrafficLight × ℚ × ℚ × ℤ))
    (h1 : 0 ≤ dt) (h2 : 0 ≤ c1.speed) (h3 : 0 ≤ dt2) (h4 : 0 ≤ c2.speed)
    (h5 : ∀ p ∈ ps, 0 ≤ p.1) (h6 : ∀ q ∈ qs, 0 ≤ q.2.1) :
    c1.position ≤ (c1.advance dt L b).position ∧
    c2.position ≤ (c2.step light dt2 line k).position ∧
    c1.position ≤ (c1.advanceSeq ps).position ∧
    c2.position ≤ (c2.stepSeq qs).position :=
  ⟨c1.advance_mono dt L b h1 h2,
    c2.step_mono light dt2 line k h3 h4,
    c1.advanceSeq_mono ps h2 h5,
    c2.stepSeq_mono qs h4 h6⟩

/-- Witness for claim C5 at a concrete car, red light, and empty folds. -/
theorem claim_C5_witness :
    ({} : TrafficLightSim.Car).position ≤
      (({} : TrafficLightSim.Car).advance 1 60 false).position :=
  (claim_C5 {} 1 60 false [] ⟨0, 20⟩ ⟨40, 30⟩ 1 60 0 []
    (by norm_num) (by decide) (by norm_num) (by decide) (by simp) (by simp)).1

/-- Claim C8: red-light stopping: when the light does not allow passing, a
car of traffic_light_sim starting before light_position ends Car.advance at
or below max (light_position - 2) its start, and a car of traffic_sim
starting before stop_line ends Car.step at or below stop_line, landing
exactly on stop_line when the full step would reach or cross it. -/
theorem claim_C8 (c : TrafficLightSim.Car) (dt L : ℚ)
    (c2 : TrafficSim.Car) (light : TrafficSim.TrafficLight) (dt2 line : ℚ)
    (k : ℤ)
    (h1 : c.position < L) (h2 : light.is_green k = false)
    (h3 : c2.position < line) :
    (c.advance dt L false).position ≤ max (L - 2) c.position ∧
    (c2.step light dt2 line k).position ≤ line ∧
    (line - c2.position ≤ c2.speed * dt2 →
      (c2.step light dt2 line k).position = line) := by
  refine ⟨?_, ?_, ?_⟩
  · simp only [TrafficLightSim.Car.advance]
    split_ifs with h
    · show c.position + min (max (L - 2) c.position - c.position) (c.speed * dt) ≤
        max (L - 2) c.position
      have := min_le_left (max (L - 2) c.position - c.position) (c.speed * dt)
      linarith
    · exact absurd ⟨by trivial, h1⟩ h
  · simp only [TrafficSim.Car.step]
    split_ifs with ha hb hc
    · linarith
    · simp [h2] at hb
    · show line ≤ line
      exact le_refl _
    · show c2.position + c2.speed * dt2 ≤ line
      simp only [ge_iff_le, not_le] at hc
      linarith
  · intro hcross
    simp only [TrafficSim.Car.step]
    have hd : ¬ (line - c2.position ≤ 0) := by linarith
    have hb : ¬ (light.is_green k = true) := by simp [h2]
    have hgd : c2.speed * dt2 ≥ line - c2.position := hcross
    rw [if_neg hd, if_neg hb, if_pos hgd]

/-- Witness for claim C8 at a car before a red light. -/
theorem claim_C8_witness :
    ((⟨0, 1⟩ : TrafficLightSim.Car).advance 1 60 false).position ≤
      max (60 - 2 : ℚ) ((⟨0, 1⟩ : TrafficLightSim.Car).position) :=
  (claim_C8 ⟨0, 1⟩ 1 60 ⟨0, 1⟩ ⟨40, 30⟩ 1 60 40
    (by decide) (by decide) (by decide)).1

/-- Claim C6: Simulation.__init__ of traffic_sim raises ValueError if and
only if stop_line ≥ road_length, in which case no simulation state is
produced; for stop_line < road_length construction succeeds with tick 0, no
cars, the given geometry, and the (40, 30) light. -/
theorem claim_C6 (mk : ℤ → ℕ → ℚ) (g : ℕ → ℚ) (rl sl cs sr ts : ℚ)
    (seed : Option ℤ) :
    ((∃ e, TrafficSim.Simulation.init mk g rl sl cs sr ts seed = .error e) ↔
      rl ≤ sl) ∧
    (∀ s rng, TrafficSim.Simulation.init mk g rl sl cs sr ts seed = .ok (s, rng) →
      s.road_length = rl ∧ s.stop_line = sl ∧ s.car_speed = cs ∧
      s.spawn_rate = sr ∧ s.time_step = ts ∧ s.tick = 0 ∧ s.cars = [] ∧
      s.light = ⟨40, 30⟩) ∧
    (sl < rl →
      ∃ s rng, TrafficSim.Simulation.init mk g rl sl cs sr ts seed = .ok (s, rng)) := by
  unfold TrafficSim.Simulation.init
  split_ifs with h
  · refine ⟨⟨fun _ => h, fun _ => ⟨_, rfl⟩⟩, ?_, ?_⟩
    · intro s rng heq
      exact absurd heq (by simp)
    · intro hlt
      exact absurd h (not_le.mpr hlt)
  · refine ⟨⟨?_, fun hge => absurd hge h⟩, ?_, ?_⟩
    · rintro ⟨e, he⟩
      exact absurd he (by simp)
    · intro s rng heq
      simp only [Except.ok.injEq, Prod.mk.injEq] at heq
      obtain ⟨hs, -⟩ := heq
      subst hs
      exact ⟨rfl, rfl, rfl, rfl, rfl, rfl, rfl, rfl⟩
    · intro _
      exact ⟨_, _, rfl⟩

/-- Witness for claim C6 at the default arguments of traffic_sim. -/
theorem claim_C6_witness :
    (⟨120, 60, 20, 7/20, 1/10, 0, [], ⟨40, 30⟩⟩ : TrafficSim.Simulation).tick = 0 :=
  ((claim_C6 (fun _ _ => 0) (fun _ => 0) 120 60 20 (7/20) (1/10) (some 13)).2.1
    ⟨120, 60, 20, 7/20, 1/10, 0, [], ⟨40, 30⟩⟩ (fun _ => 0)
    (by norm_num [TrafficSim.Simulation.init])).2.2.2.2.2.1

/-- Claim C7: main of traffic_light_sim returns exit code 1 if and only if
argv has more than one element and argv[1] does not parse as a float, in
which case it prints the error line to stderr; otherwise it returns 0 with
nothing on stderr, using the parsed value, or the default 0.25, as the
arrival rate. -/
theorem claim_C7 (parse : String → Option ℚ) (argv : List String) :
    ((TrafficLightSim.main parse argv).exit_code = 1 ↔
      argv.length > 1 ∧ parse (argv.getD 1 ("")) = none) ∧
    ((TrafficLightSim.main parse argv).exit_code = 1 →
      (TrafficLightSim.main parse argv).stderr =
        [("Arrival rate must be numeric (cars per second).")]) ∧
    ((TrafficLightSim.main parse argv).exit_code ≠ 1 →
      (TrafficLightSim.main parse argv).exit_code = 0 ∧
      (TrafficLightSim.main parse argv).stderr = [] ∧
      (TrafficLightSim.main parse argv).arrival_rate =
        (if argv.length > 1 then parse (argv.getD 1 ("")) else some (1/4))) := by
  unfold TrafficLightSim.main
  split_ifs with h
  · cases hp : parse (argv.getD 1 ("")) with
    | none => simp [h, hp]
    | some v => simp [h, hp]
  · simp [h]

/-- Witness for claim C7 on a two-element argv whose second entry does not
parse. -/
theorem claim_C7_witness :
    (TrafficLightSim.main (fun _ => none) [("prog"), ("x")]).stderr =
      [("Arrival rate must be numeric (cars per second).")] :=
  (claim_C7 (fun _ => none) [("prog"), ("x")]).2.1 (by rfl)

/-- Iterated StreetSimulation.step only depends on the draws it consumes. -/
lemma TrafficLightSim.StreetSimulation.stepN_congr (s : StreetSimulation)
    (f g : ℕ → ℚ) (n : ℕ) (h : ∀ i, i < n → f i = g i) :
    s.stepN f n = s.stepN g n := by
  induction n with
  | zero => rfl
  | succ n ih =>
      show (s.stepN f n).step (f n) = (s.stepN g n).step (g n)
      rw [ih (fun i hi => h i (Nat.lt_succ_of_lt hi)), h n (Nat.lt_succ_self n)]

/-- Iterated Simulation.update only depends on the draws it consumes. -/
lemma TrafficSim.Simulation.updateN_congr (s : Simulation)
    (f g : ℕ → ℚ) (n : ℕ) (h : ∀ i, i < n → f i = g i) :
    s.updateN f n = s.updateN g n := by
  induction n with
  | zero => rfl
  | succ n ih =>
      show (s.updateN f n).update (f n) = (s.updateN g n).update (g n)
      rw [ih (fun i hi => h i (Nat.lt_succ_of_lt hi)), h n (Nat.lt_succ_self n)]

/-- Claim C10: determinism modulo the random stream: runs of the step and
update loops from equal states that draw equal random values are equal, and
the default traffic_sim construction seeds the generator with 13, so its
post-construction state, hence the spawn sequence, is independent of the
prior global generator state. -/
theorem claim_C10 (s : TrafficLightSim.StreetSimulation) (f g : ℕ → ℚ) (n : ℕ)
    (s2 : TrafficSim.Simulation) (f2 g2 : ℕ → ℚ)
    (mk : ℤ → ℕ → ℚ) (r1 r2 : ℕ → ℚ)
    (hfg : ∀ i, i < n → f i = g i) (hfg2 : ∀ i, i < n → f2 i = g2 i) :
    s.stepN f n = s.stepN g n ∧
    s2.updateN f2 n = s2.updateN g2 n ∧
    TrafficSim.Simulation.initDefault mk r1 =
      TrafficSim.Simulation.initDefault mk r2 := by
  refine ⟨s.stepN_congr f g n hfg, s2.updateN_congr f2 g2 n hfg2, ?_⟩
  unfold TrafficSim.Simulation.initDefault TrafficSim.Simulation.init
  rfl

/-- Witness for claim C10: the default construction gives the same result
from two different prior generator states. -/
theorem claim_C10_witness :
    TrafficSim.Simulation.initDefault (fun _ _ => 0) (fun _ => 0) =
      TrafficSim.Simulation.initDefault (fun _ _ => 0) (fun _ => 1) :=
  (claim_C10 { light := {} } (fun _ => 0) (fun _ => 0) 0
    ⟨120, 60, 20, 7/20, 1/10, 0, [], ⟨40, 30⟩⟩ (fun _ => 0) (fun _ => 0)
    (fun _ _ => 0) (fun _ => 0) (fun _ => 1)
    (fun _ _ => rfl) (fun _ _ => rfl)).2.2
